import Mathlib

/-!
Verification of the Episode Lineup Planning Engine of this repository
(`src/services/lineup_agent.py`, `src/models/enums.py`, `src/models/game.py`).

The embedding follows the Python source closely:
* Python ints are `Int`; Python lists are `List`.
* Loosely-typed dictionaries (oracle segment suggestions, the game context)
  are modelled as structures whose fields carry the defaults that the source
  applies via `dict.get(key, default)`; alias keys that the source merges with
  `d.get("a") or d.get("b")` are modelled as a single field.
* `int(x * 0.15)`-style computations, which the source performs in binary
  floating point, are embedded as exact truncated integer division
  (`Int.tdiv`); the two agree on the budgets exercised here.
* Code that raises is modelled with `Option` (`none` = exception).
-/

/-- Episode status type (`EpisodeStatus` enum in the source). -/
inductive EpisodeStatus where
  | pre_match
  | post_match
deriving DecidableEq, Repr

/-- Legacy tone enum (`SegmentTone` in the source). -/
inductive SegmentTone where
  | analytical
  | excited
  | dramatic
  | conversational
  | informative
deriving DecidableEq, Repr

/-- Uppercase a string, character by character (Python `str.upper` on the
ASCII strings handled by the engine). -/
def upperStr (s : String) : String :=
  String.mk (s.data.map Char.toUpper)

/-- Strip leading and trailing whitespace (Python `str.strip`). -/
def stripStr (s : String) : String :=
  String.mk
    (((s.data.dropWhile Char.isWhitespace).reverse.dropWhile
      Char.isWhitespace).reverse)

/-- Does `hay` start with `needle`? Helper for substring containment. -/
def leadsWith : List Char → List Char → Bool
  | [], _ => true
  | _ :: _, [] => false
  | a :: as, b :: bs => a == b && leadsWith as bs

/-- Substring containment on character lists (Python `needle in hay`). -/
def subList (needle : List Char) : List Char → Bool
  | [] => needle.isEmpty
  | c :: rest => leadsWith needle (c :: rest) || subList needle rest

/-- Python `needle in hay` on strings. -/
def containsToken (needle hay : String) : Bool :=
  subList needle.toList hay.toList

/-- Game status helper `GameStatus.is_finished` (`src/models/enums.py`):
status 99 or the 90..199 range, plus FINISHED = 1 and JUST_ENDED = 163. -/
def gameStatusFinished (status : Int) : Bool :=
  if status == 99 || (decide (90 ≤ status) && decide (status < 200)) then true
  else status == 1 || status == 163

/-- Game status helper `GameStatus.is_upcoming`: status ≤ DIDNT_START = 0. -/
def gameStatusUpcoming (status : Int) : Bool :=
  decide (status ≤ 0)

/-- Game status helper `GameStatus.is_live`: status = ACTIVE = 2. -/
def gameStatusLive (status : Int) : Bool :=
  status == 2

/-- A competitor (`Competitor` model): only the fields the planning engine
reads (name for titles, id for the winning-team lookup). -/
structure Competitor where
  name : String := ""
  id : Int := 0
deriving DecidableEq, Repr

/-- One betting option (entries of the odds `options` list; alias keys
`name`/`Name`, `rate`/`Rate`, `trend`/`Trend`, `original_rate`/`OriginalRate`
are merged). -/
structure BetOption where
  name : String := ""
  rate : String := ""
  trend : Int := 0
  original_rate : Option String := none
deriving DecidableEq, Repr

/-- Market data payload (`main_odds` / `betting` values).  `btype` models the
`type`/`Type` code as an integer (the source also accepts the strings "1X2"
and "1", which denote the same market as code 1). -/
structure BettingData where
  btype : Int := 0
  overunder : Option String := none
  options : List BetOption := []
  bookmaker : Option String := none
deriving DecidableEq, Repr

/-- A betting value as the engine sees it: either a plain dictionary (context
keys, dictionary-stored games, the placeholder) or a pydantic `BetLine`
object (`Game.main_odds`).  The distinction matters because a `BetLine` has
no dictionary accessors: the `isinstance(betting_data, dict)` guards skip it,
and an unguarded `betting_data.get(...)` on it raises AttributeError. -/
inductive BettingValue where
  | dict (b : BettingData)
  | line (b : BettingData)
deriving DecidableEq, Repr

/-- The `Game` pydantic model (`src/models/game.py`), restricted to the fields
the planning engine reads: status/score/winner/timing for classification,
competitors for titles, `main_odds` for the sponsored segment. -/
structure Game where
  gid : Int := 0
  gt : Int := 0
  stime : Option String := none
  scrs : List Int := []
  winner : Option Int := none
  is_started : Bool := false
  comps : List Competitor := []
  competition_display_name : Option String := none
  main_odds : Option BettingData := none
deriving DecidableEq, Repr

/-- Python `game.winner is not None and game.winner >= 0`. -/
def winnerNonneg (g : Game) : Bool :=
  match g.winner with
  | some w => decide (0 ≤ w)
  | none => false

/-- Tier 3 of `detect_status`: compare the scheduled start time with the
current time.  The source's cascade of datetime formats is modelled by the
abstract parser `parse` returning epoch seconds; `parse s = none` models the
case where every format fails, whose `ValueError` the source catches before
falling through to the PRE_MATCH default. -/
def detectStatusTier3 (parse : String → Option Int) (now : Int) (g : Game) :
    EpisodeStatus :=
  match g.stime with
  | none => .pre_match
  | some s =>
    match parse s with
    | none => .pre_match
    | some t =>
      if t < now then
        if 7200 < now - t then .post_match
        else if !g.scrs.isEmpty || winnerNonneg g then .post_match
        else .pre_match
      else .pre_match

/-- The extra status-code check of `detect_status` (status 99 or 90..199 with
a start indication); note it is subsumed by `gameStatusFinished`, so it can
only fall through. -/
def detectStatusTier2b (parse : String → Option Int) (now : Int) (g : Game) :
    EpisodeStatus :=
  if (g.gt == 99 || (decide (90 ≤ g.gt) && decide (g.gt < 200)))
      && (g.is_started || decide (2 ≤ g.scrs.length)) then .post_match
  else detectStatusTier3 parse now g

/-- Tier 2 of `detect_status`: the `GameStatus` enum classification. -/
def detectStatusTier2 (parse : String → Option Int) (now : Int) (g : Game) :
    EpisodeStatus :=
  if gameStatusFinished g.gt then .post_match
  else if gameStatusUpcoming g.gt then .pre_match
  else if gameStatusLive g.gt then .post_match
  else detectStatusTier2b parse now g

/-- `LineupAgent.detect_status`.  Tier 1 (scores and winner) applies only when
the score list has at least two entries; otherwise control falls through to
the status-code tier and then the time-based tier, defaulting to PRE_MATCH. -/
def detectStatus (parse : String → Option Int) (now : Int) (g : Game) :
    EpisodeStatus :=
  if 2 ≤ g.scrs.length then
    let valid := g.scrs.filter (fun s => decide (0 ≤ s))
    if !valid.isEmpty && valid.any (fun s => decide (0 < s)) then .post_match
    else if winnerNonneg g then .post_match
    else detectStatusTier2 parse now g
  else detectStatusTier2 parse now g

/-- One oracle (or fallback) segment suggestion: the dictionaries of the
`segment_suggestions` list.  Field values carry the defaults the source
applies via `seg_data.get(key, default)` (`priority` 50,
`suggested_duration_seconds` 0, `tone_level` 3, empty lists and cue). -/
structure SegmentData where
  topic : String := ""
  priority : Int := 50
  suggested_duration_seconds : Int := 0
  key_facts : List String := []
  tone_level : Int := 3
  source_refs : List String := []
  transition_cue : String := ""
deriving DecidableEq, Repr

/-- A finalized segment (`PodcastSegment` pydantic model).  The source's
pydantic model additionally validates `1 ≤ tone_level ≤ 5`; the embedding
does not enforce the bound (every engine-generated path satisfies it). -/
structure PodcastSegment where
  topic : String := ""
  key_data_points : List String := []
  tone_level : Int := 3
  tone : SegmentTone := .conversational
  allocated_time : Int := 0
  estimated_word_count : Int := 0
  source_data_refs : List String := []
  transition_cue : String := ""
deriving DecidableEq, Repr

/-- Word-count estimate `int(duration * WORDS_PER_SECOND)` with
`WORDS_PER_SECOND = 2.5`: exact value `duration * 5 / 2` truncated toward
zero, matching Python `int(...)` on the float product. -/
def wordCount (duration : Int) : Int :=
  Int.tdiv (duration * 5) 2

/-- Is a single key fact usable?  One conjunct of `_has_available_data`:
the fact's upper-cased text contains neither "NOT_AVAILABLE" nor "N/A" as a
substring, and the stripped fact is non-empty. -/
def goodFact (f : String) : Bool :=
  !(containsToken "NOT_AVAILABLE" (upperStr f))
    && !(containsToken "N/A" (upperStr f))
    && !(stripStr f == "")

/-- The zero-tolerance filter `_has_available_data`: a candidate survives iff
some key fact is usable, or it has at least one source reference. -/
def hasAvailableData (key_facts : List String) (source_refs : List String) :
    Bool :=
  key_facts.any goodFact || !source_refs.isEmpty

/-- The fact filter applied to a retained segment's `key_data_points`
(`_allocate_time`, "Filter out NOT_AVAILABLE from key_data_points"); note it
does not re-check non-emptiness of the stripped fact. -/
def keepFact (f : String) : Bool :=
  !(containsToken "NOT_AVAILABLE" (upperStr f))
    && !(containsToken "N/A" (upperStr f))

/-- The clamped tone of `_enforce_tone_transitions`: move toward the original
value by at most two levels from the previous tone. -/
def clampTone (prev c : Int) : Int :=
  if prev < c then min (prev + 2) c else max (prev - 2) c

/-- One step of `_enforce_tone_transitions`: clamp a jump of more than two
tone levels to `previous ± 2` and synthesize a cue, otherwise (for non-first
segments) synthesize a generic cue when none is present. -/
def enforceToneStep (first : Bool) (prev : Int) (s : SegmentData) :
    SegmentData :=
  if 2 < (s.tone_level - prev).natAbs then
    { s with
        tone_level := clampTone prev s.tone_level,
        transition_cue :=
          "Gradually shift from tone level " ++ toString prev ++ " to "
            ++ toString (clampTone prev s.tone_level) }
  else if first = false ∧ s.transition_cue = "" then
    { s with
        transition_cue :=
          "Transition from previous segment (tone " ++ toString prev ++ ")" }
  else s

/-- The traversal of `_enforce_tone_transitions`: `prev` is the running
previous tone, `first` marks the head of the original list. -/
def enforceToneAux (first : Bool) (prev : Int) :
    List SegmentData → List SegmentData
  | [] => []
  | s :: rest =>
    let s2 := enforceToneStep first prev s
    s2 :: enforceToneAux false s2.tone_level rest

/-- `_enforce_tone_transitions`: previous tone starts at 3 (conversational). -/
def enforceToneTransitions (l : List SegmentData) : List SegmentData :=
  enforceToneAux true 3 l

/-- Map a tone level to the legacy `SegmentTone` enum
(`_tone_level_to_enum`). -/
def toneLevelToEnum (tone_level : Int) : SegmentTone :=
  if tone_level ≤ 1 then .analytical
  else if tone_level == 2 then .informative
  else if tone_level == 3 then .conversational
  else if tone_level == 4 then .excited
  else .dramatic

/-- The per-candidate loop of `_allocate_time`: `n` is the length of the
smoothed candidate list, `i` the enumeration index (which advances even over
skipped candidates), `allocated` the running total of content time.  The
source computes `int((priority / total_priority) * available)` in floating
point; the embedding uses the exact truncated quotient. -/
def allocateLoop (total_priority available : Int) (n : Nat) :
    Nat → Int → List SegmentData → List PodcastSegment
  | _, _, [] => []
  | i, allocated, seg :: rest =>
    if hasAvailableData seg.key_facts seg.source_refs then
      let duration :=
        if i < n - 1 then
          let propTime := Int.tdiv (seg.priority * available) total_priority
          min (max propTime (Int.fdiv seg.suggested_duration_seconds 2))
            (available - allocated)
        else available - allocated
      let duration := max duration 15
      let s : PodcastSegment :=
        { topic := seg.topic,
          key_data_points := seg.key_facts.filter keepFact,
          tone_level := seg.tone_level,
          tone := toneLevelToEnum seg.tone_level,
          allocated_time := duration,
          estimated_word_count := wordCount duration,
          source_data_refs := seg.source_refs,
          transition_cue := if 0 < i then seg.transition_cue else "" }
      s :: allocateLoop total_priority available n (i + 1)
        (allocated + duration) rest
    else allocateLoop total_priority available n (i + 1) allocated rest

/-- A game stored in the context as a plain dictionary.  Alias keys that the
source merges (`game_status`/`gt`, `game_id`/`gid`, `start_time`/`stime`,
`scrs`/`scores`, `is_started`/`IsStarted`, `betting`/`main_odds`/...) are
single fields; `final_score` is the `{"home": h, "away": a}` mapping;
`top_performers` keeps only the entry names the engine reads. -/
structure GameDict where
  game_status : Option Int := none
  game_id : Option Int := none
  start_time : Option String := none
  scrs : Option (List Int) := none
  winner : Option Int := none
  is_started : Bool := false
  final_score : Option (Int × Int) := none
  home_team : Option Competitor := none
  away_team : Option Competitor := none
  competition : Option String := none
  betting : Option BettingData := none
  top_performers : List String := []
  head_to_head : Bool := false
  form : Bool := false
  next_match : Bool := false
deriving DecidableEq, Repr

/-- A value stored under the `game` key (or in the `games` array): either a
`Game` object placed there by the enrichment stage, or a plain dictionary. -/
inductive GameValue where
  | obj (g : Game)
  | dict (d : GameDict)
deriving DecidableEq, Repr

/-- The enriched game context (`ContentContext`), restricted to the keys the
planning engine reads.  Boolean fields model presence of the corresponding
data (`head_to_head`, `form`, `next_matches`/aliases).  An entirely absent or
empty ({}) context dictionary is modelled as `none` at the use sites. -/
structure GameContext where
  game : Option GameValue := none
  games : List GameValue := []
  betting : Option BettingData := none
  relevant_odds : Option BettingData := none
  head_to_head : Bool := false
  form : Bool := false
  next_matches : Bool := false
deriving DecidableEq, Repr

/-- Python `game_context.get("game") or (game_context.get("games", [{}])[0]
if game_context.get("games") else {})`: the primary game value (`none` models
the empty-dictionary result). -/
def primaryGame (ctx : GameContext) : Option GameValue :=
  match ctx.game with
  | some g => some g
  | none => ctx.games.head?

/-- Primary game value of an optional (possibly empty) context. -/
def primaryOfCtx (ctx : Option GameContext) : Option GameValue :=
  ctx.bind primaryGame

/-- Python `int(total * frac)` for the percentage shares of
`_create_default_segments`, as exact truncated division (`frac = k / 100`);
the source computes the product in floating point. -/
def pctShare (total k : Int) : Int :=
  Int.tdiv (total * k) 100

/-- Team names used by `_create_default_segments`: dictionary accessors with
"Home Team"/"Away Team" defaults.  A `Game` object reaching this code raises
AttributeError in the source (pydantic models have no `.get`), so callers
pass only the dictionary case. -/
def defaultTeams (gd : Option GameDict) : String × String :=
  match gd with
  | some d => ((d.home_team.map (fun t => t.name)).getD "Home Team",
               (d.away_team.map (fun t => t.name)).getD "Away Team")
  | none => ("Home Team", "Away Team")

/-- `_create_default_segments`: the five canonical narrative-flow templates
per phase, used only when the candidate list is empty.  Shares of
`total_seconds`: PRE 15/25/25/20/10 percent, POST 20/30/25/15/10 percent. -/
def createDefaultSegments (status : EpisodeStatus) (total_seconds : Int)
    (gd : Option GameDict) : List SegmentData :=
  let (home_team, away_team) := defaultTeams gd
  match status with
  | .pre_match =>
    [ { topic := "The " ++ home_team ++ " vs " ++ away_team
          ++ " Showdown: What\x27s at Stake",
        priority := 80,
        suggested_duration_seconds := pctShare total_seconds 15,
        key_facts := [],
        tone_level := 4,
        source_refs := ["game.home_team", "game.away_team",
          "game.competition"],
        transition_cue := "" },
      { topic := "Recent Form & Head-to-Head: The Story So Far",
        priority := 75,
        suggested_duration_seconds := pctShare total_seconds 25,
        key_facts := [],
        tone_level := 2,
        source_refs := ["standings", "form"],
        transition_cue :=
          "Now let\x27s look at how these teams have been performing" },
      { topic := "Team News: Injuries, Suspensions & Probable Lineups",
        priority := 70,
        suggested_duration_seconds := pctShare total_seconds 25,
        key_facts := [],
        tone_level := 3,
        source_refs := ["lineups", "injuries"],
        transition_cue := "Turning to team news and availability" },
      { topic := "Tactical Preview: Formations & Key Matchups",
        priority := 65,
        suggested_duration_seconds := pctShare total_seconds 20,
        key_facts := [],
        tone_level := 2,
        source_refs := ["lineups.formation", "pre_game_stats"],
        transition_cue := "Let\x27s break down the tactical battle" },
      { topic := "The Betting Angle: Odds & Predictions",
        priority := 60,
        suggested_duration_seconds := pctShare total_seconds 10,
        key_facts := [],
        tone_level := 3,
        source_refs := ["betting"],
        transition_cue := "Finally, what do the bookmakers think?" } ]
  | .post_match =>
    let home_score := ((gd.bind (fun d => d.final_score)).map Prod.fst).getD 0
    let away_score := ((gd.bind (fun d => d.final_score)).map Prod.snd).getD 0
    let top_performer_name :=
      ((gd.map (fun d => d.top_performers)).getD []).headD "Key Player"
    [ { topic := home_team ++ " " ++ toString home_score ++ "-"
          ++ toString away_score ++ " " ++ away_team ++ ": The Final Verdict",
        priority := 90,
        suggested_duration_seconds := pctShare total_seconds 20,
        key_facts := [],
        tone_level := 5,
        source_refs := ["final_score", "winner"],
        transition_cue := "" },
      { topic := "The Decisive Moments: Goals, Cards & Game-Changing Events",
        priority := 85,
        suggested_duration_seconds := pctShare total_seconds 30,
        key_facts := [],
        tone_level := 4,
        source_refs := ["events"],
        transition_cue :=
          "Let\x27s relive the key moments that shaped this match" },
      { topic := "By the Numbers: Possession, Shots & Statistical Dominance",
        priority := 75,
        suggested_duration_seconds := pctShare total_seconds 25,
        key_facts := [],
        tone_level := 2,
        source_refs := ["statistics"],
        transition_cue := "Now let\x27s analyze the numbers" },
      { topic := "Man of the Match: " ++ top_performer_name
          ++ "\x27s Standout Performance",
        priority := 70,
        suggested_duration_seconds := pctShare total_seconds 15,
        key_facts := [],
        tone_level := 3,
        source_refs := ["top_performers"],
        transition_cue := "Turning to individual performances" },
      { topic := "League Table Impact: How This Result Changes Everything",
        priority := 65,
        suggested_duration_seconds := pctShare total_seconds 10,
        key_facts := [],
        tone_level := 2,
        source_refs := ["standings"],
        transition_cue := "Finally, what does this mean for the league?" } ]

/-- One `priority_stories` entry (defaults per `story.get(...)`). -/
structure Story where
  story : String := ""
  score : Int := 50
deriving DecidableEq, Repr

/-- The prioritized-data mapping returned by the analysis step. -/
structure PrioritizedData where
  priority_stories : List Story := []
  segment_suggestions : List SegmentData := []
  explosive_quotes : List String := []
  betting_highlights : List String := []
deriving DecidableEq, Repr

/-- Team names as read by `_create_fallback_prioritization`: `Game` objects
via the `home_team`/`away_team` properties (first/second competitor), plain
dictionaries via nested `get` with "Home Team"/"Away Team" defaults. -/
def fallbackTeams (pg : Option GameValue) : String × String :=
  match pg with
  | some (.obj g) => (((g.comps.head?).map (fun t => t.name)).getD "Home Team",
                      ((g.comps.get? 1).map (fun t => t.name)).getD "Away Team")
  | some (.dict d) => ((d.home_team.map (fun t => t.name)).getD "Home Team",
                       (d.away_team.map (fun t => t.name)).getD "Away Team")
  | none => ("Home Team", "Away Team")

/-- Scores as read by the POST branch of `_create_fallback_prioritization`:
`Game` objects via the `home_score`/`away_score` properties (`scrs[0]`,
`scrs[1]`, defaulting to 0), dictionaries via `final_score`. -/
def fallbackScores (pg : Option GameValue) : Int × Int :=
  match pg with
  | some (.obj g) => ((g.scrs.head?).getD 0, (g.scrs.get? 1).getD 0)
  | some (.dict d) => ((d.final_score.map Prod.fst).getD 0,
                       (d.final_score.map Prod.snd).getD 0)
  | none => (0, 0)

/-- The `competition` string of the fallback PRE branch (dictionary access
with default "Unknown"; a `Game` object contributes the empty `game_data`
dictionary, hence also "Unknown"). -/
def fallbackCompetition (pg : Option GameValue) : String :=
  match pg with
  | some (.dict d) => d.competition.getD "Unknown"
  | _ => "Unknown"

/-- `_create_fallback_prioritization`: the deterministic two-candidate
replacement used whenever the oracle call fails, times out, or returns
unparseable output. -/
def createFallbackPrioritization (ctx : Option GameContext)
    (status : EpisodeStatus) : PrioritizedData :=
  let pg := primaryOfCtx ctx
  let (home_team, away_team) := fallbackTeams pg
  match status with
  | .pre_match =>
    { priority_stories := [],
      segment_suggestions :=
        [ { topic := home_team ++ " vs " ++ away_team ++ ": What\x27s at Stake",
            priority := 80,
            suggested_duration_seconds := 60,
            key_facts := [home_team ++ " vs " ++ away_team,
              "Competition: " ++ fallbackCompetition pg],
            tone_level := 4,
            source_refs := ["game.home_team", "game.away_team",
              "game.competition"],
            transition_cue := "" },
          { topic := "Recent Form & Head-to-Head Analysis",
            priority := 70,
            suggested_duration_seconds := 45,
            key_facts := ["Recent form data if available"],
            tone_level := 2,
            source_refs := ["form", "standings"],
            transition_cue := "Now let\x27s examine recent form" } ],
      explosive_quotes := [],
      betting_highlights := [] }
  | .post_match =>
    let (home_score, away_score) := fallbackScores pg
    { priority_stories := [],
      segment_suggestions :=
        [ { topic := home_team ++ " " ++ toString home_score ++ "-"
              ++ toString away_score ++ " " ++ away_team
              ++ ": The Final Result",
            priority := 90,
            suggested_duration_seconds := 90,
            key_facts := ["Final score: " ++ home_team ++ " "
              ++ toString home_score ++ "-" ++ toString away_score ++ " "
              ++ away_team],
            tone_level := 5,
            source_refs := ["final_score", "winner"],
            transition_cue := "" },
          { topic := "Key Match Events: Goals & Decisive Moments",
            priority := 85,
            suggested_duration_seconds := 60,
            key_facts := ["Match events if available"],
            tone_level := 4,
            source_refs := ["events"],
            transition_cue := "Let\x27s break down the key moments" } ],
      explosive_quotes := [],
      betting_highlights := [] }

/-- The placeholder three-option market used when no betting data is present
("Home Win"/"Draw"/"Away Win", each rate "N/A"). -/
def placeholderBetting : BettingData :=
  { btype := 1,
    options := [ { name := "Home Win", rate := "N/A", trend := 0 },
                 { name := "Draw", rate := "N/A", trend := 0 },
                 { name := "Away Win", rate := "N/A", trend := 0 } ] }

/-- Betting data lookup shared by `_create_final_ticket_segment` and
`_extract_betting_corner_config`: game-level `main_odds`/`betting` first,
then the context-level `betting`/`relevant_odds` keys.  A value taken from a
`Game` object's `main_odds` is a pydantic `BetLine` (tagged `.line`);
dictionary-stored and context-level odds are plain dictionaries
(tagged `.dict`). -/
def rawBetting (ctx : GameContext) : Option BettingValue :=
  let fromGame : Option BettingValue :=
    match primaryGame ctx with
    | some (.obj g) => g.main_odds.map (fun b => .line b)
    | some (.dict d) => d.betting.map (fun b => .dict b)
    | none => none
  match fromGame with
  | some b => some b
  | none =>
    match ctx.betting with
    | some b => some (.dict b)
    | none => ctx.relevant_odds.map (fun b => .dict b)

/-- Trend arrow used in odds lines (trend 1 up, -1 down, otherwise flat). -/
def trendArrow (trend : Int) : String :=
  if trend == 1 then "↑" else if trend == -1 then "↓" else "→"

/-- Key data points of "The Final Ticket" segment.  Odds lines (up to three
options with non-empty name and rate) and the market-type line are built only
when the betting value is a dictionary — the `isinstance(betting_data, dict)`
guard skips a `BetLine`, which contributes no lines — followed by the
phase-specific prediction-challenge line. -/
def finalTicketKeyPoints (status : EpisodeStatus) (bv : BettingValue) :
    List String :=
  let dataLines :=
    match bv with
    | .line _ => []
    | .dict bd =>
      let oddsLines := (bd.options.take 3).filterMap (fun o =>
        if o.name ≠ "" ∧ o.rate ≠ "" then
          some (o.name ++ ": " ++ o.rate ++ " " ++ trendArrow o.trend)
        else none)
      let marketLines :=
        if bd.btype == 0 then []
        else if bd.btype == 1 then ["Market: Full-time Result (1X2)"]
        else if bd.btype == 2 then
          ["Market: Over/Under " ++ (bd.overunder.getD "2.5")]
        else []
      oddsLines ++ marketLines
  let challenge :=
    match status with
    | .pre_match =>
      ["Panel Prediction Challenge: Predict the outcome of the current game"]
    | .post_match =>
      ["Panel Prediction Challenge: Predict the outcome of the next match for the winning team (extract from \x27next matches mini-recap\x27 data)"]
  dataLines ++ challenge

/-- `_create_final_ticket_segment`: `none` when the context is absent or
empty, otherwise always a segment (placeholder odds if no betting data);
duration `min(max(30, available_time // 8), 45)`. -/
def createFinalTicketSegment (status : EpisodeStatus)
    (ctx : Option GameContext) (available_time : Int) :
    Option PodcastSegment :=
  match ctx with
  | none => none
  | some c =>
    let bd := (rawBetting c).getD (.dict placeholderBetting)
    let duration := min (max 30 (Int.fdiv available_time 8)) 45
    some
      { topic := "The Final Ticket",
        key_data_points := finalTicketKeyPoints status bd,
        tone_level := 3,
        tone := .conversational,
        allocated_time := duration,
        estimated_word_count := wordCount duration,
        source_data_refs := ["betting", "main_odds"],
        transition_cue :=
          "Now let\x27s talk about where the smart money is going..." }

/-- The fixed intro segment (tone 4, half of the 30-second intro/outro
reservation). -/
def introSegment : PodcastSegment :=
  { topic := "Introduction",
    key_data_points := [],
    tone_level := 4,
    tone := .excited,
    allocated_time := Int.fdiv 30 2,
    estimated_word_count := wordCount (Int.fdiv 30 2),
    source_data_refs := [],
    transition_cue := "" }

/-- The fixed outro segment (tone 3, half of the 30-second intro/outro
reservation). -/
def outroSegment : PodcastSegment :=
  { topic := "Outro",
    key_data_points := [],
    tone_level := 3,
    tone := .conversational,
    allocated_time := Int.fdiv 30 2,
    estimated_word_count := wordCount (Int.fdiv 30 2),
    source_data_refs := [],
    transition_cue := "" }

/-- Sum of the allocated durations of a segment list. -/
def segSum (l : List PodcastSegment) : Int :=
  (l.map (fun s => s.allocated_time)).sum

/-- Add `d` to a segment's duration and recompute its word count (the body of
the reconciliation step). -/
def adjustSeg (d : Int) (s : PodcastSegment) : PodcastSegment :=
  { s with
      allocated_time := s.allocated_time + d,
      estimated_word_count := wordCount (s.allocated_time + d) }

/-- Apply `adjustSeg d` to the final element of a list. -/
def adjustLast (d : Int) : List PodcastSegment → List PodcastSegment
  | [] => []
  | [s] => [adjustSeg d s]
  | s :: t :: rest => s :: adjustLast d (t :: rest)

/-- The reconciliation step of `_allocate_time`: if the durations do not sum
to the total budget, add the signed difference to the last segment (the
outro) and recompute its word count. -/
def reconcile (total_seconds : Int) (segs : List PodcastSegment) :
    List PodcastSegment :=
  if segSum segs = total_seconds then segs
  else if segs.isEmpty then segs
  else adjustLast (total_seconds - segSum segs) segs

/-- The body of `_allocate_time` on an already-chosen candidate list: smooth
tones, allocate proportional durations (30 s reserved for intro/outro, 30 s
for "The Final Ticket"), insert the intro at the front, append the sponsored
segment (forced to exactly its 30-second reservation) and the outro, then
reconcile the total. -/
def allocateCore (sd : List SegmentData) (total_duration_minutes : Int)
    (status : EpisodeStatus) (ctx : Option GameContext) :
    List PodcastSegment :=
  let total_seconds := total_duration_minutes * 60
  let smoothed := enforceToneTransitions sd
  let tpRaw := (smoothed.map (fun s => s.priority)).sum
  let total_priority :=
    if tpRaw = 0 then (smoothed.length : Int) * 50 else tpRaw
  let intro_outro_time : Int := 30
  let final_ticket_time : Int := 30
  let available := total_seconds - intro_outro_time - final_ticket_time
  let content :=
    allocateLoop total_priority available smoothed.length 0 0 smoothed
  let ticket := (createFinalTicketSegment status ctx final_ticket_time).map
    (fun t => { t with
      allocated_time := final_ticket_time,
      estimated_word_count := wordCount final_ticket_time })
  let base := introSegment :: content ++ ticket.toList ++ [outroSegment]
  reconcile total_seconds base

/-- `_allocate_time`: when the candidate list is empty the five default
templates replace it; in the source, a `Game` object stored under the
context's `game` key raises AttributeError inside `_create_default_segments`
(dictionary accessors on a pydantic model), modelled by `none`. -/
def allocateTime (cands : List SegmentData) (total_duration_minutes : Int)
    (status : EpisodeStatus) (ctx : Option GameContext) :
    Option (List PodcastSegment) :=
  if cands.isEmpty then
    match primaryOfCtx ctx with
    | some (.obj _) => none
    | some (.dict d) =>
      some (allocateCore
        (createDefaultSegments status (total_duration_minutes * 60) (some d))
        total_duration_minutes status ctx)
    | none =>
      some (allocateCore
        (createDefaultSegments status (total_duration_minutes * 60) none)
        total_duration_minutes status ctx)
  else some (allocateCore cands total_duration_minutes status ctx)

/-- Team names and competition label as read by `_generate_title` (note the
"Home"/"Away" defaults, different from the fallback generator's
"Home Team"/"Away Team"). -/
def titleTeams (pg : Option GameValue) : String × String × String :=
  match pg with
  | some (.obj g) => (((g.comps.head?).map (fun t => t.name)).getD "Home",
                      ((g.comps.get? 1).map (fun t => t.name)).getD "Away",
                      g.competition_display_name.getD "")
  | some (.dict d) => ((d.home_team.map (fun t => t.name)).getD "Home",
                       (d.away_team.map (fun t => t.name)).getD "Away",
                       d.competition.getD "")
  | none => ("Home", "Away", "")

/-- `_generate_title`: a high-priority story (score above 80, non-empty text)
becomes the headline, otherwise a phase-specific template from team names,
competition and (post-match) the final score. -/
def generateTitle (ctx : Option GameContext) (status : EpisodeStatus)
    (pd : PrioritizedData) : String :=
  let pg := primaryOfCtx ctx
  let (home_team, away_team, competition) := titleTeams pg
  let defaultTitle :=
    match status with
    | .pre_match =>
      home_team ++ " vs " ++ away_team ++ " - " ++ competition ++ " Preview"
    | .post_match =>
      let (home_score, away_score) := fallbackScores pg
      home_team ++ " " ++ toString home_score ++ "-" ++ toString away_score
        ++ " " ++ away_team ++ " - " ++ competition ++ " Recap"
  match pd.priority_stories.head? with
  | some first =>
    if 80 < first.score ∧ first.story ≠ "" then
      home_team ++ " vs " ++ away_team ++ ": " ++ first.story
    else defaultTitle
  | none => defaultTitle

/-- `_calculate_priority_score`: mean of the top three story scores (default
50 when no stories), +10 bonus capped at 100 when explosive quotes exist.
The source computes the mean in floating point and rounds the result to one
decimal with Python `round`; the embedding uses exact rationals and
round-half-up on tenths. -/
def calculatePriorityScore (pd : PrioritizedData) : Rat :=
  match pd.priority_stories with
  | [] => 50
  | stories =>
    let top_scores := (stories.take 3).map (fun st => (st.score : Rat))
    let avg := top_scores.sum / (top_scores.length : Rat)
    let avg := if pd.explosive_quotes.isEmpty then avg else min 100 (avg + 10)
    (round (10 * avg) : Rat) / 10

/-- One entry of the sponsored segment's featured-odds mapping (current rate,
original rate, trend arrow per option name). -/
structure FeaturedOdd where
  name : String := ""
  current : String := ""
  original : String := ""
  trend : String := ""
deriving DecidableEq, Repr

/-- Configuration for "The Final Ticket" (`BettingCornerConfig` model). -/
structure BettingCornerConfig where
  bookmaker_name : String := ""
  target_market : String := "Full-time Result"
  featured_odds : List FeaturedOdd := []
  prediction_context : String := ""
deriving DecidableEq, Repr

/-- Winner indicator as read by the POST branch of
`_extract_betting_corner_config`. -/
def ctxWinner (pg : Option GameValue) : Option Int :=
  match pg with
  | some (.obj g) => g.winner
  | some (.dict d) => d.winner
  | none => none

/-- `_extract_betting_corner_config`: selects market label, bookmaker, up to
three featured-odds entries and a phase-specific prediction-context line
(placeholder odds when no market data exists).  The bookmaker and
featured-odds reads are guarded by `isinstance(betting_data, dict)`, but the
market-type read `betting_data.get("type")` is not: when the betting value is
a `Game` object's `main_odds` (a pydantic `BetLine`, which has no `.get`),
that line raises AttributeError — modelled by `none`. -/
def extractBettingCornerConfig (ctx : Option GameContext)
    (status : EpisodeStatus) : Option BettingCornerConfig :=
  let pg := primaryOfCtx ctx
  match ((ctx.bind rawBetting)).getD (.dict placeholderBetting) with
  | .line _ => none
  | .dict bd =>
  let bookmaker_name := bd.bookmaker.getD "365Scores"
  let target_market :=
    if bd.btype == 1 then "Full-time Result"
    else if bd.btype == 2 then "Over/Under " ++ (bd.overunder.getD "2.5")
    else "Full-time Result"
  let featured_odds := (bd.options.take 3).filterMap (fun o =>
    if o.name ≠ "" ∧ o.rate ≠ "" then
      some { name := o.name, current := o.rate,
             original := o.original_rate.getD o.rate,
             trend := trendArrow o.trend : FeaturedOdd }
    else none)
  let prediction_context :=
    match status with
    | .pre_match =>
      let h2h := (match pg with
        | some (.dict d) => d.head_to_head
        | _ => false) || (ctx.map (fun c => c.head_to_head)).getD false
      let form := (match pg with
        | some (.dict d) => d.form
        | _ => false) || (ctx.map (fun c => c.form)).getD false
      if h2h then "Based on head-to-head records and recent form"
      else if form then "Based on recent team form and league standings"
      else "Based on available match data"
    | .post_match =>
      let winner := ctxWinner pg
      let next := (ctx.map (fun c => c.next_matches)).getD false
        || (match pg with
            | some (.dict d) => d.next_match
            | _ => false)
      match winner with
      | some w =>
        if 0 ≤ w then
          if next then
            "Based on match result and next match preview for the winning team (from next matches mini-recap)"
          else
            "Based on match result and upcoming fixture analysis for the winning team"
        else "Based on match performance and next match preview"
      | none => "Based on match performance and next match preview"
  some
    { bookmaker_name := bookmaker_name,
      target_market := target_market,
      featured_odds := featured_odds,
      prediction_context := prediction_context }

/-- Does the context store a `Game` object carrying main odds as its primary
game value?  Exactly then the sponsored-config extractor reaches its
unguarded dictionary access on a `BetLine` and `create_lineup` raises
AttributeError. -/
def facadeOddsObj (ctx : Option GameContext) : Bool :=
  match primaryOfCtx ctx with
  | some (.obj g) => g.main_odds.isSome
  | _ => false

/-- The complete lineup (`PodcastLineup` pydantic model). -/
structure PodcastLineup where
  episode_title : String := ""
  status : EpisodeStatus := .pre_match
  match_status : String := ""
  total_duration_minutes : Int := 0
  segments : List PodcastSegment := []
  priority_score : Rat := 0
  betting_corner_config : Option BettingCornerConfig := none
deriving DecidableEq, Repr

/-- Python `status.value.upper().replace("_", " ")`. -/
def matchStatusLabel (status : EpisodeStatus) : String :=
  match status with
  | .pre_match => "PRE MATCH"
  | .post_match => "POST MATCH"

/-- The minimal `Game` constructed by `create_lineup` from dictionary data;
a well-formed `final_score` mapping overrides the score list. -/
def minimalGame (d : GameDict) : Game :=
  let scrs :=
    match d.final_score with
    | some (h, a) => [h, a]
    | none => d.scrs.getD []
  { gid := d.game_id.getD 0,
    gt := d.game_status.getD 0,
    stime := d.start_time,
    scrs := scrs,
    winner := d.winner,
    is_started := d.is_started }

/-- The game the façade classifies: a `Game` object stored under the `game`
key takes priority, then a `Game` object at the head of `games`, then a
dictionary from either place (turned into a minimal `Game`), else nothing. -/
def facadeGame (ctx : Option GameContext) : Option Game :=
  match ctx with
  | none => none
  | some c =>
    let gameObj : Option Game :=
      match c.game with
      | some (.obj g) => some g
      | _ => none
    match gameObj with
    | some g => some g
    | none =>
      match c.games.head? with
      | some (.obj g) => some g
      | some (.dict d) => some (minimalGame d)
      | none =>
        match c.game with
        | some (.dict d) => some (minimalGame d)
        | _ => none

/-- Status detection inside `create_lineup`: classify the stored or
reconstructed game, defaulting to PRE_MATCH when none exists. -/
def facadeStatus (parse : String → Option Int) (now : Int)
    (ctx : Option GameContext) : EpisodeStatus :=
  match facadeGame ctx with
  | some g => detectStatus parse now g
  | none => .pre_match

/-- `create_lineup` on the oracle-failure path: the analysis step catches
every oracle error and substitutes `_create_fallback_prioritization`, after
which the pipeline runs allocation, title, priority score and sponsored
configuration in the source's order.  `none` models an uncaught exception:
either the allocation step's AttributeError (empty candidate list with a
`Game` object in the context) or the sponsored-config extractor's
AttributeError (a `Game` object carrying main odds).  The façade itself
contains no raise statement and no input validation. -/
def createLineupFallback (parse : String → Option Int) (now : Int)
    (ctx : Option GameContext) (total_duration_minutes : Int) :
    Option PodcastLineup :=
  let status := facadeStatus parse now ctx
  let prioritized := createFallbackPrioritization ctx status
  (allocateTime prioritized.segment_suggestions total_duration_minutes status
      ctx).bind (fun segments =>
    (extractBettingCornerConfig ctx status).map (fun betting_config =>
      { episode_title := generateTitle ctx status prioritized,
        status := status,
        match_status := matchStatusLabel status,
        total_duration_minutes := total_duration_minutes,
        segments := segments,
        priority_score := calculatePriorityScore prioritized,
        betting_corner_config := some betting_config }))

/-- A tone sequence is chained from `prev` when every step moves by at most
two levels. -/
def toneChainOK (prev : Int) : List Int → Bool
  | [] => true
  | t :: rest => decide ((t - prev).natAbs ≤ 2) && toneChainOK t rest

theorem clampTone_bound (prev c : Int) (h : 2 < (c - prev).natAbs) :
    ((clampTone prev c) - prev).natAbs ≤ 2 := by
  unfold clampTone
  split
  · next hlt =>
    rw [min_def]
    split <;> omega
  · next hlt =>
    rw [max_def]
    split <;> omega

theorem enforceToneStep_bound (first : Bool) (prev : Int) (s : SegmentData) :
    ((enforceToneStep first prev s).tone_level - prev).natAbs ≤ 2 := by
  unfold enforceToneStep
  split
  · next h => exact clampTone_bound prev s.tone_level h
  · next h =>
    split
    all_goals
      show ((s.tone_level : Int) - prev).natAbs ≤ 2
      omega

theorem enforceToneStep_key_facts (first : Bool) (prev : Int)
    (s : SegmentData) : (enforceToneStep first prev s).key_facts = s.key_facts
    := by
  unfold enforceToneStep
  split
  · rfl
  · split <;> rfl

theorem enforceToneStep_source_refs (first : Bool) (prev : Int)
    (s : SegmentData) :
    (enforceToneStep first prev s).source_refs = s.source_refs := by
  unfold enforceToneStep
  split
  · rfl
  · split <;> rfl

theorem enforceToneAux_chain : ∀ (l : List SegmentData) (first : Bool)
    (prev : Int), toneChainOK prev
      ((enforceToneAux first prev l).map (fun s => s.tone_level)) = true
  | [], _, _ => rfl
  | s :: rest, first, prev => by
    simp only [enforceToneAux, List.map_cons, toneChainOK, Bool.and_eq_true,
      decide_eq_true_eq]
    exact ⟨enforceToneStep_bound first prev s,
      enforceToneAux_chain rest false ((enforceToneStep first prev s).tone_level)⟩

theorem segSum_cons (s : PodcastSegment) (l : List PodcastSegment) :
    segSum (s :: l) = s.allocated_time + segSum l := by
  simp [segSum]

theorem adjustLast_segSum (d : Int) : ∀ (l : List PodcastSegment), l ≠ [] →
    segSum (adjustLast d l) = segSum l + d
  | [], h => absurd rfl h
  | [s], _ => by
    simp [adjustLast, segSum, adjustSeg]
  | s :: t :: rest, _ => by
    have ih := adjustLast_segSum d (t :: rest) (List.cons_ne_nil t rest)
    simp only [adjustLast, segSum_cons, ih]
    ring

theorem adjustLast_ne_nil (d : Int) : ∀ (l : List PodcastSegment), l ≠ [] →
    adjustLast d l ≠ []
  | [], h => absurd rfl h
  | [_], _ => by simp [adjustLast]
  | _ :: _ :: _, _ => by simp [adjustLast]

theorem adjustLast_dropLast (d : Int) : ∀ (l : List PodcastSegment),
    (adjustLast d l).dropLast = l.dropLast
  | [] => rfl
  | [s] => rfl
  | s :: t :: rest => by
    have ih := adjustLast_dropLast d (t :: rest)
    rcases rest with _ | ⟨r, rs⟩
    · simp [adjustLast]
    · simp only [adjustLast] at ih ⊢
      rw [List.dropLast_cons₂, List.dropLast_cons₂, ih]

theorem adjustLast_getLast? (d : Int) : ∀ (l : List PodcastSegment),
    (adjustLast d l).getLast? = l.getLast?.map (adjustSeg d)
  | [] => rfl
  | [s] => rfl
  | s :: t :: rest => by
    have ih := adjustLast_getLast? d (t :: rest)
    rcases rest with _ | ⟨r, rs⟩
    · simp [adjustLast]
    · simp only [adjustLast] at ih ⊢
      rw [List.getLast?_cons_cons, List.getLast?_cons_cons (l := r :: rs), ih]

theorem adjustLast_map_topic (d : Int) : ∀ (l : List PodcastSegment),
    (adjustLast d l).map (fun s => s.topic) = l.map (fun s => s.topic)
  | [] => rfl
  | [s] => rfl
  | s :: t :: rest => by
    have ih := adjustLast_map_topic d (t :: rest)
    simp only [adjustLast, List.map_cons] at ih ⊢
    rw [ih]

theorem reconcile_segSum (T : Int) (l : List PodcastSegment) (h : l ≠ []) :
    segSum (reconcile T l) = T := by
  unfold reconcile
  split
  · next heq => exact heq
  · split
    · next hemp => exact absurd (List.isEmpty_iff.mp hemp) h
    · rw [adjustLast_segSum (T - segSum l) l h]
      ring

theorem reconcile_ne_nil (T : Int) (l : List PodcastSegment) (h : l ≠ []) :
    reconcile T l ≠ [] := by
  unfold reconcile
  split
  · exact h
  · split
    · exact h
    · exact adjustLast_ne_nil _ l h

theorem reconcile_dropLast (T : Int) (l : List PodcastSegment) :
    (reconcile T l).dropLast = l.dropLast := by
  unfold reconcile
  split
  · rfl
  · split
    · rfl
    · exact adjustLast_dropLast _ l

theorem reconcile_getLast_topic (T : Int) (l : List PodcastSegment) :
    ((reconcile T l).getLast?).map (fun s => s.topic) =
      (l.getLast?).map (fun s => s.topic) := by
  unfold reconcile
  split
  · rfl
  · split
    · rfl
    · rw [adjustLast_getLast?]
      cases l.getLast? <;> rfl

theorem reconcile_map_topic (T : Int) (l : List PodcastSegment) :
    (reconcile T l).map (fun s => s.topic) = l.map (fun s => s.topic) := by
  unfold reconcile
  split
  · rfl
  · split
    · rfl
    · exact adjustLast_map_topic _ l

theorem allocateCore_segSum (sd : List SegmentData)
    (total_duration_minutes : Int) (status : EpisodeStatus)
    (ctx : Option GameContext) :
    segSum (allocateCore sd total_duration_minutes status ctx) =
      total_duration_minutes * 60 := by
  simp only [allocateCore]
  exact reconcile_segSum _ _ (List.cons_ne_nil _ _)

theorem allocateCore_ne_nil (sd : List SegmentData)
    (total_duration_minutes : Int) (status : EpisodeStatus)
    (ctx : Option GameContext) :
    allocateCore sd total_duration_minutes status ctx ≠ [] := by
  simp only [allocateCore]
  exact reconcile_ne_nil _ _ (List.cons_ne_nil _ _)

theorem allocateLoop_mem : ∀ (sd : List SegmentData) (tp av : Int)
    (n i : Nat) (a : Int) (seg : PodcastSegment),
    seg ∈ allocateLoop tp av n i a sd →
    ∃ c ∈ sd, hasAvailableData c.key_facts c.source_refs = true ∧
      seg.key_data_points = c.key_facts.filter keepFact ∧
      seg.source_data_refs = c.source_refs
  | [], _, _, _, _, _, _, h => by simp [allocateLoop] at h
  | c :: rest, tp, av, n, i, a, seg, h => by
    by_cases hc : hasAvailableData c.key_facts c.source_refs = true
    · rw [allocateLoop, if_pos hc] at h
      rcases List.mem_cons.mp h with heq | hmem
      · exact ⟨c, List.mem_cons_self c rest, hc, by rw [heq], by rw [heq]⟩
      · obtain ⟨c2, hc2, hd, hk, hr⟩ := allocateLoop_mem rest tp av n (i + 1)
          _ seg hmem
        exact ⟨c2, List.mem_cons_of_mem c hc2, hd, hk, hr⟩
    · rw [allocateLoop, if_neg hc] at h
      obtain ⟨c2, hc2, hd, hk, hr⟩ := allocateLoop_mem rest tp av n (i + 1)
        a seg h
      exact ⟨c2, List.mem_cons_of_mem c hc2, hd, hk, hr⟩

theorem allocateLoop_nil : ∀ (sd : List SegmentData) (tp av : Int)
    (n i : Nat) (a : Int),
    (∀ c ∈ sd, hasAvailableData c.key_facts c.source_refs = false) →
    allocateLoop tp av n i a sd = []
  | [], _, _, _, _, _, _ => rfl
  | c :: rest, tp, av, n, i, a, h => by
    have hc : hasAvailableData c.key_facts c.source_refs = false :=
      h c (List.mem_cons_self c rest)
    rw [allocateLoop, if_neg (by simp [hc])]
    exact allocateLoop_nil rest tp av n (i + 1) a
      (fun c2 hc2 => h c2 (List.mem_cons_of_mem c hc2))

theorem enforceToneAux_filtered : ∀ (l : List SegmentData) (first : Bool)
    (prev : Int),
    (∀ c ∈ l, hasAvailableData c.key_facts c.source_refs = false) →
    ∀ c ∈ enforceToneAux first prev l,
      hasAvailableData c.key_facts c.source_refs = false
  | [], _, _, _, _, h => by simp [enforceToneAux] at h
  | s :: rest, first, prev, h, c, hc => by
    rw [enforceToneAux] at hc
    rcases List.mem_cons.mp hc with heq | hmem
    · rw [heq, hasAvailableData, enforceToneStep_key_facts,
        enforceToneStep_source_refs]
      exact h s (List.mem_cons_self s rest)
    · exact enforceToneAux_filtered rest false _
        (fun c2 hc2 => h c2 (List.mem_cons_of_mem s hc2)) c hmem

/-- C1: for every invocation of the time allocator, over any candidate list
(including the empty one, which is replaced by the default templates), the
segment durations of the returned lineup sum to exactly
`total_minutes × 60`; the reconciliation step absorbs every rounding
discrepancy into the final (outro) segment. -/
theorem claim_C1_duration_conservation :
    (∀ (sd : List SegmentData) (total_duration_minutes : Int)
        (status : EpisodeStatus) (ctx : Option GameContext),
      segSum (allocateCore sd total_duration_minutes status ctx) =
        total_duration_minutes * 60) ∧
    (∀ (cands : List SegmentData) (total_duration_minutes : Int)
        (status : EpisodeStatus) (ctx : Option GameContext)
        (l : List PodcastSegment),
      allocateTime cands total_duration_minutes status ctx = some l →
      segSum l = total_duration_minutes * 60) := by
  refine ⟨allocateCore_segSum, ?_⟩
  intro cands mins status ctx l h
  rcases cands with _ | ⟨c, cs⟩
  · rw [allocateTime] at h
    simp only [List.isEmpty_nil, if_true] at h
    rcases hp : primaryOfCtx ctx with _ | gv
    · rw [hp] at h
      injection h with h2
      rw [← h2]
      exact allocateCore_segSum _ _ _ _
    · rcases gv with g | d <;> rw [hp] at h
      · exact absurd h (by simp)
      · injection h with h2
        rw [← h2]
        exact allocateCore_segSum _ _ _ _
  · rw [allocateTime] at h
    simp only [List.isEmpty_cons, if_false] at h
    injection h with h2
    rw [← h2]
    exact allocateCore_segSum _ _ _ _

/-- Witness for C1 at a concrete one-candidate invocation of a five-minute
episode: the returned segments sum to exactly 300 seconds. -/
theorem claim_C1_duration_conservation_witness :
    segSum (allocateCore
      [{ topic := "Form", key_facts := ["Won the last three matches"],
         tone_level := 2 }] 5 .pre_match none) = 5 * 60 :=
  claim_C1_duration_conservation.2
    [{ topic := "Form", key_facts := ["Won the last three matches"],
       tone_level := 2 }] 5 .pre_match none _ rfl

theorem assembleTicket (T : Int) (content : List PodcastSegment)
    (t : PodcastSegment) :
    (Option.map (fun s => (s.topic, s.allocated_time))
        (reconcile T (introSegment :: content ++ [t] ++ [outroSegment])).dropLast.getLast? =
      some (t.topic, t.allocated_time)) ∧
    (Option.map (fun s => s.topic)
        (reconcile T (introSegment :: content ++ [t] ++ [outroSegment])).getLast? =
      some "Outro") := by
  have hb : introSegment :: content ++ [t] ++ [outroSegment] =
      (introSegment :: (content ++ [t])) ++ [outroSegment] := by
    simp
  constructor
  · rw [reconcile_dropLast, hb, List.dropLast_concat]
    have hb2 : introSegment :: (content ++ [t]) =
        (introSegment :: content) ++ [t] := by simp
    rw [hb2, List.getLast?_concat]
    rfl
  · rw [reconcile_getLast_topic, hb, List.getLast?_concat]
    rfl

/-- C2 (counterexample): for a 300-second episode the claim computes a
37-second sponsored reservation (`clamp(300 / 8, 30, 45)`), but the engine
reserves a fixed 30 seconds (`final_ticket_time = 30`), and the sponsored
segment's forced duration is 30, not 37. -/
theorem claim_C2_counterexample :
    Option.map (fun s => s.allocated_time)
        (allocateCore [] 5 .pre_match (some {})).dropLast.getLast? = some 30 ∧
      (30 : Int) ≠ 37 := by
  constructor
  · decide
  · decide

/-- C2 (amended): the sponsored-segment reservation is a fixed 30 seconds
regardless of the requested duration (the `min(max(30, t // 8), 45)` clamp is
evaluated on the 30-second reservation rather than on the total budget, so it
always yields 30); whenever a non-empty context is supplied the sponsored
segment is produced, its duration is forced to exactly the reservation, and
it sits immediately before the outro in the returned lineup. -/
theorem claim_C2_sponsored_amended :
    ∀ (sd : List SegmentData) (total_duration_minutes : Int)
      (status : EpisodeStatus) (c : GameContext),
      (Option.map (fun s => (s.topic, s.allocated_time))
          (allocateCore sd total_duration_minutes status (some c)).dropLast.getLast? =
        some ("The Final Ticket", 30)) ∧
      (Option.map (fun s => s.topic)
          (allocateCore sd total_duration_minutes status (some c)).getLast? =
        some "Outro") := by
  intro sd mins status c
  simp only [allocateCore, createFinalTicketSegment, Option.map_some',
    Option.toList_some]
  exact assembleTicket _ _ _

/-- C3 (counterexample): a single surviving candidate at tone level 1 passes
the smoother unchanged (|1 − 3| ≤ 2), but the inserted intro has tone 4, so
the final lineup's tone sequence is [4, 1, 3] and the pair formed with the
intro jumps by 3 levels, violating the claimed bound over the full final
sequence. -/
theorem claim_C3_counterexample :
    (allocateTime
        [{ topic := "Cold stats", key_facts := ["Real data"], tone_level := 1 }]
        5 .pre_match none).map
      (fun l => l.map (fun s => s.tone_level)) = some [4, 1, 3] ∧
    ¬ (((4 : Int) - 1).natAbs ≤ 2) := by
  constructor
  · decide
  · decide

/-- C3 (amended): the pairwise tone bound holds for the output of the tone
smoother itself — starting from the running previous tone 3, consecutive
smoothed candidates never differ by more than two levels — but it is not an
invariant of the full final lineup, where the inserted intro (tone 4) or the
removal of filtered candidates can create larger jumps. -/
theorem claim_C3_tone_bound_amended :
    ∀ (l : List SegmentData),
      toneChainOK 3 ((enforceToneTransitions l).map (fun s => s.tone_level)) =
        true := by
  intro l
  exact enforceToneAux_chain l true 3

/-- C4 (counterexample): on oracle failure the engine's fallback produces
exactly two PRE candidate segments, not five; and the separate five-template
default generator gives the last canonical topic 10 percent of the budget
(30 seconds of a 300-second episode), not the claimed 15 percent
(45 seconds). -/
theorem claim_C4_counterexample :
    (createFallbackPrioritization none .pre_match).segment_suggestions.length
        = 2 ∧
      (createDefaultSegments .pre_match 300 none).map
        (fun s => s.suggested_duration_seconds) = [45, 75, 75, 60, 30] ∧
      (2 : Nat) ≠ 5 ∧ (30 : Int) ≠ 45 := by
  refine ⟨?_, ?_, ?_, ?_⟩ <;> decide

/-- C4 (amended): when the oracle fails, the engine synthesizes exactly two
fallback candidates for a PRE_EVENT episode (stakes/introduction at tone 4
with a 60-second suggestion, recent-form & head-to-head at tone 2 with a
45-second suggestion); the five canonical PRE_EVENT templates — with tone
levels 4, 2, 3, 2, 3 and suggested durations of 15/25/25/20/10 percent of the
total budget — come from the default-segment generator, which runs only when
the candidate list is empty. -/
theorem claim_C4_fallback_amended :
    (∀ (ctx : Option GameContext),
      (createFallbackPrioritization ctx .pre_match).segment_suggestions.map
          (fun s => (s.tone_level, s.suggested_duration_seconds)) =
        [(4, 60), (2, 45)]) ∧
    (∀ (total_seconds : Int) (gd : Option GameDict),
      (createDefaultSegments .pre_match total_seconds gd).map
          (fun s => s.tone_level) = [4, 2, 3, 2, 3] ∧
      (createDefaultSegments .pre_match total_seconds gd).map
          (fun s => s.suggested_duration_seconds) =
        [pctShare total_seconds 15, pctShare total_seconds 25,
         pctShare total_seconds 25, pctShare total_seconds 20,
         pctShare total_seconds 10]) := by
  refine ⟨fun ctx => ?_, fun total_seconds gd => ⟨?_, ?_⟩⟩ <;> rfl

theorem getD_not_line (ctx : Option GameContext)
    (h : facadeOddsObj ctx = false) :
    ∀ b, ((ctx.bind rawBetting)).getD (.dict placeholderBetting) ≠
      BettingValue.line b := by
  intro b hcon
  rcases ctx with _ | c
  · simp at hcon
  · simp only [Option.some_bind] at hcon
    simp only [facadeOddsObj, primaryOfCtx, Option.some_bind] at h
    rcases hr : rawBetting c with _ | bv
    · rw [hr] at hcon
      simp at hcon
    · rw [hr] at hcon
      simp only [Option.getD_some] at hcon
      subst hcon
      simp only [rawBetting] at hr
      rcases hpg : primaryGame c with _ | gv
      · simp only [hpg] at hr
        rcases hcb : c.betting with _ | b2 <;> simp only [hcb] at hr
        · rcases hro : c.relevant_odds with _ | b3 <;> simp [hro] at hr
        · simp at hr
      · rcases gv with g | d
        · simp only [hpg] at hr h
          rcases hmo : g.main_odds with _ | b4
          · simp only [hmo, Option.map_none'] at hr
            rcases hcb : c.betting with _ | b2 <;> simp only [hcb] at hr
            · rcases hro : c.relevant_odds with _ | b3 <;> simp [hro] at hr
            · simp at hr
          · rw [hmo] at h
            simp at h
        · simp only [hpg] at hr
          rcases hdb : d.betting with _ | b2
          · simp only [hdb, Option.map_none'] at hr
            rcases hcb : c.betting with _ | b2 <;> simp only [hcb] at hr
            · rcases hro : c.relevant_odds with _ | b3 <;> simp [hro] at hr
            · simp at hr
          · simp [hdb] at hr

theorem extractConfig_isSome (ctx : Option GameContext)
    (status : EpisodeStatus) (h : facadeOddsObj ctx = false) :
    (extractBettingCornerConfig ctx status).isSome = true := by
  simp only [extractBettingCornerConfig]
  rcases hh : ((ctx.bind rawBetting)).getD (.dict placeholderBetting)
    with bd | bd
  · rfl
  · exact absurd hh (getD_not_line ctx h bd)

theorem extractConfig_none (ctx : Option GameContext)
    (status : EpisodeStatus) (h : facadeOddsObj ctx = true) :
    extractBettingCornerConfig ctx status = none := by
  rcases ctx with _ | c
  · simp [facadeOddsObj, primaryOfCtx] at h
  · simp only [facadeOddsObj, primaryOfCtx, Option.some_bind] at h
    rcases hpg : primaryGame c with _ | gv
    · simp [hpg] at h
    · rcases gv with g | d
      · simp only [hpg] at h
        obtain ⟨b, hb⟩ := Option.isSome_iff_exists.mp h
        simp [extractBettingCornerConfig, Option.some_bind, rawBetting,
          hpg, hb]
      · simp [hpg] at h

theorem createLineupFallback_eq (parse : String → Option Int) (now : Int)
    (ctx : Option GameContext) (total_duration_minutes : Int)
    (cfg : BettingCornerConfig)
    (hcfg : extractBettingCornerConfig ctx (facadeStatus parse now ctx) =
      some cfg) :
    createLineupFallback parse now ctx total_duration_minutes =
      some
        { episode_title := generateTitle ctx (facadeStatus parse now ctx)
            (createFallbackPrioritization ctx (facadeStatus parse now ctx)),
          status := facadeStatus parse now ctx,
          match_status := matchStatusLabel (facadeStatus parse now ctx),
          total_duration_minutes := total_duration_minutes,
          segments := allocateCore
            (createFallbackPrioritization ctx
              (facadeStatus parse now ctx)).segment_suggestions
            total_duration_minutes (facadeStatus parse now ctx) ctx,
          priority_score := calculatePriorityScore
            (createFallbackPrioritization ctx (facadeStatus parse now ctx)),
          betting_corner_config := some cfg }
    := by
  cases hst : facadeStatus parse now ctx
  case pre_match =>
    rw [hst] at hcfg
    unfold createLineupFallback
    rw [hst]
    have hAl : allocateTime
        (createFallbackPrioritization ctx .pre_match).segment_suggestions
        total_duration_minutes .pre_match ctx =
      some (allocateCore
        (createFallbackPrioritization ctx .pre_match).segment_suggestions
        total_duration_minutes .pre_match ctx) := rfl
    dsimp only
    rw [hAl, Option.some_bind, hcfg, Option.map_some']
  case post_match =>
    rw [hst] at hcfg
    unfold createLineupFallback
    rw [hst]
    have hAl : allocateTime
        (createFallbackPrioritization ctx .post_match).segment_suggestions
        total_duration_minutes .post_match ctx =
      some (allocateCore
        (createFallbackPrioritization ctx .post_match).segment_suggestions
        total_duration_minutes .post_match ctx) := rfl
    dsimp only
    rw [hAl, Option.some_bind, hcfg, Option.map_some']

theorem createLineupFallback_none (parse : String → Option Int) (now : Int)
    (ctx : Option GameContext) (total_duration_minutes : Int)
    (h : facadeOddsObj ctx = true) :
    createLineupFallback parse now ctx total_duration_minutes = none := by
  have hex := extractConfig_none ctx (facadeStatus parse now ctx) h
  cases hst : facadeStatus parse now ctx
  case pre_match =>
    rw [hst] at hex
    unfold createLineupFallback
    rw [hst]
    have hAl : allocateTime
        (createFallbackPrioritization ctx .pre_match).segment_suggestions
        total_duration_minutes .pre_match ctx =
      some (allocateCore
        (createFallbackPrioritization ctx .pre_match).segment_suggestions
        total_duration_minutes .pre_match ctx) := rfl
    dsimp only
    rw [hAl, Option.some_bind, hex]
    rfl
  case post_match =>
    rw [hst] at hex
    unfold createLineupFallback
    rw [hst]
    have hAl : allocateTime
        (createFallbackPrioritization ctx .post_match).segment_suggestions
        total_duration_minutes .post_match ctx =
      some (allocateCore
        (createFallbackPrioritization ctx .post_match).segment_suggestions
        total_duration_minutes .post_match ctx) := rfl
    dsimp only
    rw [hAl, Option.some_bind, hex]
    rfl

/-- C5 (counterexample): the claim requires a distinguishable planning error
for a non-positive total duration, but on the oracle-failure path the façade
performs no input validation and returns a fully built four-segment lineup
even for an empty context and a requested duration of 0 minutes. -/
theorem claim_C5_counterexample :
    (createLineupFallback (fun _ => none) 0 none 0).map
      (fun l => l.segments.length) = some 4 := by
  decide

/-- C5 (amended): on the oracle-failure path the façade performs no input
validation and never raises a distinguishable planning error.  For every
requested duration (including non-positive ones) and every context whose
primary game entry is not a `Game` object carrying main odds — in particular
every context missing the competitors — it returns a fully built lineup
carrying the requested duration.  The only uncaught failure is incidental:
when the context stores a `Game` object with main odds, the sponsored-config
extractor's unguarded dictionary access on the `BetLine` raises
AttributeError (not the claimed planning error), and no lineup is
returned. -/
theorem claim_C5_facade_amended :
    (∀ (parse : String → Option Int) (now : Int) (ctx : Option GameContext)
        (total_duration_minutes : Int),
      facadeOddsObj ctx = false →
      ∃ lineup,
        createLineupFallback parse now ctx total_duration_minutes =
            some lineup ∧
          lineup.segments ≠ [] ∧
          lineup.total_duration_minutes = total_duration_minutes ∧
          segSum lineup.segments = total_duration_minutes * 60) ∧
    (∀ (parse : String → Option Int) (now : Int) (ctx : Option GameContext)
        (total_duration_minutes : Int),
      facadeOddsObj ctx = true →
      createLineupFallback parse now ctx total_duration_minutes = none) := by
  constructor
  · intro parse now ctx mins h
    obtain ⟨cfg, hcfg⟩ := Option.isSome_iff_exists.mp
      (extractConfig_isSome ctx (facadeStatus parse now ctx) h)
    exact ⟨_, createLineupFallback_eq parse now ctx mins cfg hcfg,
      allocateCore_ne_nil _ _ _ _, rfl, allocateCore_segSum _ _ _ _⟩
  · intro parse now ctx mins h
    exact createLineupFallback_none parse now ctx mins h

/-- Witness for C5 (amended): a competitor-free context yields a lineup at
5 minutes, and a context storing a `Game` object with main odds yields none
(the AttributeError path). -/
theorem claim_C5_facade_amended_witness :
    (createLineupFallback (fun _ => none) 0 (some {}) 5).isSome = true ∧
    (createLineupFallback (fun _ => none) 0
        (some { game := some (.obj { main_odds := some {} }) }) 5).isSome
      = false := by
  constructor
  · obtain ⟨l, hl, -, -, -⟩ :=
      claim_C5_facade_amended.1 (fun _ => none) 0 (some {}) 5 (by decide)
    rw [hl]
    rfl
  · rw [claim_C5_facade_amended.2 (fun _ => none) 0
      (some { game := some (.obj { main_odds := some {} }) }) 5 (by decide)]
    rfl

/-- C6 (counterexample): with a single candidate whose only fact is "N/A" and
no source references, the filter drops everything, but the engine does NOT
fall back to the canonical templates: the returned lineup consists of the
intro and the outro only (plus the sponsored segment when a context is
present), with no canonical content segment at all. -/
theorem claim_C6_counterexample :
    (allocateTime
        [{ topic := "Odds", key_facts := ["N/A"], tone_level := 3 }]
        5 .pre_match none).map (fun l => l.map (fun s => s.topic)) =
      some ["Introduction", "Outro"] := by
  decide

/-- C6 (amended): if every candidate fails the zero-tolerance filter, the
returned lineup contains only the intro, the sponsored segment (when a
context is present), and the outro; the canonical default templates are used
only when the candidate list is empty before filtering, so an all-placeholder
candidate list yields a lineup with no content segments. -/
theorem claim_C6_filter_amended :
    ∀ (cands : List SegmentData) (total_duration_minutes : Int)
      (status : EpisodeStatus) (ctx : Option GameContext),
      cands ≠ [] →
      (∀ c ∈ cands, hasAvailableData c.key_facts c.source_refs = false) →
      (allocateTime cands total_duration_minutes status ctx).map
          (fun l => l.map (fun s => s.topic)) =
        some ("Introduction" ::
          (match ctx with
           | some _ => ["The Final Ticket", "Outro"]
           | none => ["Outro"])) := by
  intro cands mins status ctx hne hall
  rcases cands with _ | ⟨c, cs⟩
  · exact absurd rfl hne
  · rw [allocateTime]
    simp only [List.isEmpty_cons, if_false, Option.map_some']
    have hloop : allocateLoop
        (if ((enforceToneTransitions (c :: cs)).map
              (fun s => s.priority)).sum = 0
         then ((enforceToneTransitions (c :: cs)).length : Int) * 50
         else ((enforceToneTransitions (c :: cs)).map
              (fun s => s.priority)).sum)
        (mins * 60 - 30 - 30) (enforceToneTransitions (c :: cs)).length 0 0
        (enforceToneTransitions (c :: cs)) = [] := by
      apply allocateLoop_nil
      exact enforceToneAux_filtered (c :: cs) true 3 hall
    simp only [allocateCore, enforceToneTransitions] at hloop ⊢
    rw [hloop]
    rcases ctx with _ | cGot
    · simp only [Bool.false_eq_true, if_false, Option.map_some']
      rw [reconcile_map_topic]
      rfl
    · simp only [Bool.false_eq_true, if_false, Option.map_some']
      rw [reconcile_map_topic]
      rfl

/-- Witness for C6 (amended) at a concrete all-placeholder candidate list
with a non-empty context: intro, sponsored segment and outro only. -/
theorem claim_C6_filter_amended_witness :
    (allocateTime
        [{ topic := "Odds", key_facts := ["N/A"], tone_level := 3 }]
        5 .pre_match (some {})).map (fun l => l.map (fun s => s.topic)) =
      some ["Introduction", "The Final Ticket", "Outro"] :=
  claim_C6_filter_amended
    [{ topic := "Odds", key_facts := ["N/A"], tone_level := 3 }]
    5 .pre_match (some {}) (by decide) (by decide)

/-- C7 (counterexample): with an empty score list, status code 0 and winner
indicator 1, the classifier returns PRE_MATCH: the winner tier is nested
inside the two-entry score check, so a present non-negative winner does not
yield POST_EVENT when fewer than two score entries exist. -/
theorem claim_C7_counterexample :
    detectStatus (fun _ => none) 0
      { gt := 0, scrs := [], winner := some 1 } = .pre_match := by
  decide

/-- C7 (amended): whenever the score list has at least two entries and the
winner indicator is present and non-negative, the classifier returns
POST_EVENT from tier 1, before the status-code and time-based tiers; when
fewer than two score entries are present, tier 1 (including its winner
check) is skipped entirely. -/
theorem claim_C7_winner_amended :
    ∀ (parse : String → Option Int) (now : Int) (g : Game) (w : Int),
      2 ≤ g.scrs.length → g.winner = some w → 0 ≤ w →
      detectStatus parse now g = .post_match := by
  intro parse now g w hlen hw h0
  have hwn : winnerNonneg g = true := by simp [winnerNonneg, hw, h0]
  unfold detectStatus
  rw [if_pos hlen]
  simp only [hwn]
  split
  · rfl
  · rfl

/-- Witness for C7 (amended) at a concrete 0-0 game whose winner indicator
is 0 (a draw): POST_EVENT. -/
theorem claim_C7_winner_amended_witness :
    detectStatus (fun _ => none) 0
      { gt := 0, scrs := [0, 0], winner := some 0 } = .post_match :=
  claim_C7_winner_amended (fun _ => none) 0
    { gt := 0, scrs := [0, 0], winner := some 0 } 0 (by decide) rfl (by decide)

/-- C8: a candidate survives the zero-tolerance filter iff it has at least
one key fact whose upper-cased text contains neither "NOT_AVAILABLE" nor
"N/A" and whose stripped form is non-empty, or it has at least one recorded
source reference; consequently every content segment retained by the
allocation loop has non-empty (post-filter) key data points or non-empty
source references. -/
theorem claim_C8_filter_iff :
    (∀ (key_facts source_refs : List String),
      hasAvailableData key_facts source_refs = true ↔
        ((∃ f ∈ key_facts,
            containsToken "NOT_AVAILABLE" (upperStr f) = false ∧
            containsToken "N/A" (upperStr f) = false ∧ stripStr f ≠ "") ∨
          source_refs ≠ [])) ∧
    (∀ (total_priority available : Int) (n i : Nat) (allocated : Int)
        (sd : List SegmentData) (seg : PodcastSegment),
      seg ∈ allocateLoop total_priority available n i allocated sd →
      seg.key_data_points ≠ [] ∨ seg.source_data_refs ≠ []) := by
  constructor
  · intro key_facts source_refs
    simp [hasAvailableData, List.any_eq_true, goodFact, Bool.and_eq_true,
      Bool.not_eq_true', beq_eq_false_iff_ne, List.isEmpty_iff, and_assoc]
  · intro tp av n i a sd seg hmem
    obtain ⟨c, _, hdata, hk, hr⟩ := allocateLoop_mem sd tp av n i a seg hmem
    rw [hasAvailableData, Bool.or_eq_true] at hdata
    rcases hdata with hany | hrefs
    · left
      rw [hk]
      rw [List.any_eq_true] at hany
      obtain ⟨f, hf, hgf⟩ := hany
      have hkeep : keepFact f = true := by
        simp only [goodFact, Bool.and_eq_true] at hgf
        simp [keepFact, Bool.and_eq_true, hgf.1.1, hgf.1.2]
      exact List.ne_nil_of_mem (List.mem_filter.mpr ⟨hf, hkeep⟩)
    · right
      rw [hr]
      intro hnil
      rw [hnil] at hrefs
      simp at hrefs

/-- Witness for C8 at a concrete candidate whose only fact is the
placeholder "N/A" but which carries a source reference: it survives. -/
theorem claim_C8_filter_iff_witness :
    hasAvailableData ["N/A"] ["betting"] = true :=
  (claim_C8_filter_iff.1 ["N/A"] ["betting"]).mpr (Or.inr (by decide))

/-- C9: every entry of a retained content segment's key data points has been
stripped of placeholder facts — its upper-cased text contains neither
"NOT_AVAILABLE" nor "N/A" — even when the segment was retained solely for
its source references. -/
theorem claim_C9_fact_filter :
    ∀ (total_priority available : Int) (n i : Nat) (allocated : Int)
      (sd : List SegmentData) (seg : PodcastSegment) (fact : String),
      seg ∈ allocateLoop total_priority available n i allocated sd →
      fact ∈ seg.key_data_points →
      containsToken "NOT_AVAILABLE" (upperStr fact) = false ∧
      containsToken "N/A" (upperStr fact) = false := by
  intro tp av n i a sd seg fact hmem hfact
  obtain ⟨c, _, _, hk, _⟩ := allocateLoop_mem sd tp av n i a seg hmem
  rw [hk] at hfact
  have hkeep := List.of_mem_filter hfact
  simpa [keepFact, Bool.and_eq_true, Bool.not_eq_true'] using hkeep

/-- Witness for C9 at a concrete loop run: the surviving segment's retained
fact "Scored twice in stoppage time" is free of both placeholder markers. -/
theorem claim_C9_fact_filter_witness :
    containsToken "NOT_AVAILABLE" (upperStr "Scored twice in stoppage time")
        = false ∧
      containsToken "N/A" (upperStr "Scored twice in stoppage time") = false :=
  claim_C9_fact_filter 50 240 1 0 0
    [{ topic := "Events",
       key_facts := ["Scored twice in stoppage time", "N/A"],
       source_refs := ["events"] }]
    ((allocateLoop 50 240 1 0 0
      [{ topic := "Events",
         key_facts := ["Scored twice in stoppage time", "N/A"],
         source_refs := ["events"] }]).headD {})
    "Scored twice in stoppage time" (by decide) (by decide)

/-- C10: the phase classifier is total — for every game it returns PRE_MATCH
or POST_MATCH (exceptions from date parsing are caught inside), and whenever
tier 1 does not apply (fewer than two score entries), the status code is
neither finished nor live, and every date-parse attempt fails, the
classifier falls through to the PRE_MATCH default. -/
theorem claim_C10_classifier_total :
    (∀ (parse : String → Option Int) (now : Int) (g : Game),
      detectStatus parse now g = .pre_match ∨
        detectStatus parse now g = .post_match) ∧
    (∀ (parse : String → Option Int) (now : Int) (g : Game),
      g.scrs.length < 2 → gameStatusFinished g.gt = false →
      gameStatusLive g.gt = false → (∀ s, parse s = none) →
      detectStatus parse now g = .pre_match) := by
  constructor
  · intro parse now g
    cases h : detectStatus parse now g
    · exact Or.inl rfl
    · exact Or.inr rfl
  · intro parse now g hlen hfin hlive hparse
    have hA : (g.gt == 99 || (decide (90 ≤ g.gt) && decide (g.gt < 200)))
        = false := by
      by_contra hcon
      rw [Bool.not_eq_false] at hcon
      unfold gameStatusFinished at hfin
      rw [if_pos hcon] at hfin
      exact absurd hfin (by simp)
    unfold detectStatus
    rw [if_neg (by omega)]
    unfold detectStatusTier2
    rw [if_neg (by simp [hfin])]
    by_cases hup : gameStatusUpcoming g.gt = true
    · rw [if_pos hup]
    · rw [if_neg hup, if_neg (by simp [hlive])]
      unfold detectStatusTier2b
      rw [if_neg (by simp [hA])]
      unfold detectStatusTier3
      cases hst : g.stime
      · rfl
      · next s =>
        simp [hparse]

/-- Witness for C10 at a concrete game with a single score entry, an
unrecognized status code and an unparseable start time: PRE_MATCH without
any exception. -/
theorem claim_C10_classifier_total_witness :
    detectStatus (fun _ => none) 0
      { gt := 5, scrs := [1], winner := some (-1),
        stime := some "not-a-date" } = .pre_match :=
  claim_C10_classifier_total.2 (fun _ => none) 0
    { gt := 5, scrs := [1], winner := some (-1), stime := some "not-a-date" }
    (by decide) (by decide) (by decide) (fun _ => rfl)
